import Mathlib

/-!
Shallow embedding of `src/python_scripts/check_sonarqube_issues.py`, a CLI
tool that fetches SonarQube issues over a paginated HTTP API, scores them,
sorts them, and prints a report table.

Modelling conventions:
* Python JSON dictionaries become association lists `List (String × JVal)`
  with first-match lookup and replace-or-append update, mirroring Python
  dict semantics (unique keys, insertion order preserved).
* Python floats (the type multipliers 1.5 / 1.3 / 1.2 / 1.0 and the
  products with the integer severity scores) are modelled by exact
  rationals.  Every product of a value from the severity table with a
  value from the multiplier table is exactly representable as an IEEE
  double, and the rounding error of the double products is several orders
  of magnitude below the spacing of the distinct exact products, so the
  rational model agrees with the float code on every equality and order
  comparison that the program performs.
* Python strings are sequences of code points; slicing `s[:60]` and
  `s.split(':')` are modelled on the underlying `List Char`.
* The HTTP transport is abstracted as a `Service`: a function from the
  page number (the only query parameter that varies between requests) to
  either a transport error (`requests.exceptions.RequestException`,
  carrying its message) or a parsed response body with its `issues` array
  and `total` field.
* `sys.exit(1)` / uncaught exceptions / normal return are reified in the
  `RunResult` type together with the diagnostic messages the program
  prints; the list of page numbers requested is threaded through so that
  statements about "no retry" and "no network activity" can be made.
-/

/-- A JSON-ish value stored in an issue dictionary. -/
inductive JVal where
  | s : String → JVal
  | n : Nat → JVal
  | q : ℚ → JVal
deriving DecidableEq, Repr

/-- An issue as returned by the API: a Python dict, modelled as an
association list with unique keys. -/
abbrev Issue := List (String × JVal)

/-- Python `d[k]` / `d.get(k)`: first-match lookup. -/
def dictGet : Issue → String → Option JVal
  | [], _ => none
  | (k', v') :: rest, k => if k' = k then some v' else dictGet rest k

/-- Python `d[k] = v`: replace the binding in place if the key exists,
otherwise append the new binding (dicts preserve insertion order). -/
def dictSet : Issue → String → JVal → Issue
  | [], k, v => [(k, v)]
  | (k', v') :: rest, k, v =>
      if k' = k then (k', v) :: rest else (k', v') :: dictSet rest k v

/-- Lookup of a string-valued field. -/
def getStr (i : Issue) (k : String) : Option String :=
  match dictGet i k with
  | some (.s v) => some v
  | _ => none

/-- One parsed response body: the `issues` array and the `total` field
(the code reads them with `data.get('issues', [])` / `data.get('total', 0)`). -/
structure Page where
  issues : List Issue
  total : ℕ
deriving DecidableEq, Repr

/-- The transport: page number ↦ parsed response or transport error. -/
abbrev Service := ℕ → Except String Page

/-- Result of `SonarQubeClient.get_issues`: either the fetched issues or a
fatal transport error with the printed diagnostic.  Both carry the list of
page numbers requested, in request order. -/
inductive FetchOut where
  | ok (issues : List Issue) (pages : List ℕ)
  | err (msg : String) (pages : List ℕ)
deriving DecidableEq, Repr

/-- The page numbers requested during a fetch. -/
def FetchOut.pages : FetchOut → List ℕ
  | .ok _ p => p
  | .err _ p => p

/-- Number of issues returned by a fetch (0 for the error outcome). -/
def FetchOut.issuesLen : FetchOut → ℕ
  | .ok l _ => l.length
  | .err _ _ => 0

/-- The `while len(all_issues) < limit` loop of `get_issues`.  The Python
loop needs no fuel: every iteration that does not leave the loop appends a
nonempty page, so there are at most `limit` continuing iterations.  The
`fuel` argument makes the recursion structural; `get_issues` passes
`limit + 1`, which `get_issuesAux_fuel_sufficient` proves is enough for
the fuel never to run out before the loop condition fails. -/
def get_issuesAux (service : Service) (limit : ℕ) :
    ℕ → ℕ → List Issue → List ℕ → FetchOut
  | 0, _, acc, reqs => .ok acc reqs
  | fuel + 1, page, acc, reqs =>
    if acc.length < limit then
      match service page with
      | .error e => .err ("Error fetching issues: " ++ e) (reqs ++ [page])
      | .ok data =>
        if data.issues = [] then .ok acc (reqs ++ [page])
        else
          if data.total ≤ (acc ++ data.issues).length then
            .ok (acc ++ data.issues) (reqs ++ [page])
          else
            get_issuesAux service limit fuel (page + 1) (acc ++ data.issues)
              (reqs ++ [page])
    else .ok acc reqs

/-- `SonarQubeClient.get_issues(limit)`: paginate starting at page 1 and
return `all_issues[:limit]`, or the transport-error diagnostic. -/
def get_issues (service : Service) (limit : ℕ) : FetchOut :=
  match get_issuesAux service limit (limit + 1) 1 [] [] with
  | .ok acc reqs => .ok (acc.take limit) reqs
  | .err e reqs => .err e reqs

/-- The `severity_scores` dict of `get_priority_score`, with its
`.get(severity, 0)` default. -/
def severityScoreTable (severity : String) : ℚ :=
  if severity = "BLOCKER" then 5
  else if severity = "CRITICAL" then 4
  else if severity = "MAJOR" then 3
  else if severity = "MINOR" then 2
  else if severity = "INFO" then 1
  else 0

/-- The `type_multiplier` dict of `get_priority_score`, with its
`.get(type_, 1.0)` default. -/
def typeMultiplier (type_ : String) : ℚ :=
  if type_ = "VULNERABILITY" then 3/2
  else if type_ = "BUG" then 13/10
  else if type_ = "SECURITY_HOTSPOT" then 6/5
  else if type_ = "CODE_SMELL" then 1
  else 1

/-- `SonarQubeClient.get_priority_score`. -/
def get_priority_score (severity type_ : String) : ℚ :=
  severityScoreTable severity * typeMultiplier type_

/-- The fixed severity list used by the sort's tie-break,
`['BLOCKER', 'CRITICAL', 'MAJOR', 'MINOR', 'INFO']`. -/
def severityOrder : List String :=
  ["BLOCKER", "CRITICAL", "MAJOR", "MINOR", "INFO"]

/-- Python `severityOrder.index(s)`: position of the first occurrence, or
`none` where Python raises `ValueError`. -/
def severityIndex (s : String) : Option ℕ :=
  severityOrder.findIdx? (· == s)

/-- The scoring loop body: `issue['priority_score'] =
get_priority_score(issue['severity'], issue['type'])`.  `none` models the
`KeyError`/`TypeError` raised when a field is missing or not a string. -/
def scoreIssue (i : Issue) : Option Issue :=
  match getStr i "severity", getStr i "type" with
  | some sev, some ty =>
      some (dictSet i "priority_score" (.q (get_priority_score sev ty)))
  | _, _ => none

/-- The whole scoring loop over the fetched list. -/
def scoreAll (issues : List Issue) : Option (List Issue) :=
  issues.mapM scoreIssue

/-- The Python sort key `(-x['priority_score'],
severityOrder.index(x['severity']))`; `none` models the `KeyError` /
`ValueError` the key function can raise. -/
def issueKey (i : Issue) : Option (ℚ × ℕ) :=
  match dictGet i "priority_score", getStr i "severity" with
  | some (.q ps), some sev => (severityIndex sev).map (fun idx => (-ps, idx))
  | _, _ => none

/-- Lexicographic `≤` on sort keys: how Python compares the key tuples. -/
def keyLe (a b : ℚ × ℕ) : Bool :=
  decide (a.1 < b.1) || (decide (a.1 = b.1) && decide (a.2 ≤ b.2))

/-- Sort key with a dummy default; `sortIssues` only applies it after
checking that every key is defined. -/
def sortKeyD (i : Issue) : ℚ × ℕ :=
  (issueKey i).getD (0, 0)

/-- `issues.sort(key=...)`: Python's stable sort under the lexicographic
key order.  Returns `none` when some key raises (severity outside
`severityOrder`, or a missing field), which in Python aborts the sort with
an uncaught exception. -/
def sortIssues (issues : List Issue) : Option (List Issue) :=
  if issues.all (fun i => (issueKey i).isSome) then
    some (issues.mergeSort (fun a b => keyLe (sortKeyD a) (sortKeyD b)))
  else none

/-- Python split on a single character: `''.split(':') = ['']`,
`'a:'.split(':') = ['a','']`, etc. -/
def pySplit (c : Char) : List Char → List (List Char)
  | [] => [[]]
  | x :: xs =>
    if x = c then [] :: pySplit c xs
    else
      match pySplit c xs with
      | [] => [[x]]
      | h :: t => (x :: h) :: t

/-- One rendered table row, as built in the `for idx, issue in
enumerate(top_issues, 1)` loop of `main`.  `severity`, `type_` and `line`
are placed in the row unconverted, so they stay `JVal`s. -/
structure Row where
  idx : ℕ
  severity : JVal
  type_ : JVal
  message : String
  component : String
  line : JVal
deriving DecidableEq, Repr

/-- Build one table row: `[idx, severity, type, message[:60],
component.split(':')[-1], issue.get('line', '-')]`.  `none` models the
`KeyError` on a missing `severity`/`type` and the `TypeError` of slicing
or splitting a non-string. -/
def renderRow (idx : ℕ) (i : Issue) : Option Row :=
  match dictGet i "severity", dictGet i "type" with
  | some sev, some ty =>
    match (dictGet i "message").getD (.s "N/A"),
          (dictGet i "component").getD (.s "N/A") with
    | .s msg, .s comp =>
        some
          { idx := idx
            severity := sev
            type_ := ty
            message := ⟨msg.data.take 60⟩
            component := ⟨(pySplit ':' comp.data).getLastD []⟩
            line := (dictGet i "line").getD (.s "-") }
    | _, _ => none
  | _, _ => none

/-- The table-building loop over the top-50 list. -/
def renderRows (top : List Issue) : Option (List Row) :=
  top.enum.mapM (fun p => renderRow (p.1 + 1) p.2)

/-- The environment variables the program reads. -/
structure Env where
  sonarqToken : Option String
  sonarqBaseUrl : Option String
  sonarqProjectKey : Option String

/-- `os.environ.get('SONARQ_BASE_URL', 'https://sonarcloud.io')`. -/
def Env.baseUrl (env : Env) : String :=
  env.sonarqBaseUrl.getD "https://sonarcloud.io"

/-- `os.environ.get('SONARQ_PROJECT_KEY', 'FreeSideNomad_messaging-platform')`. -/
def Env.projectKey (env : Env) : String :=
  env.sonarqProjectKey.getD "FreeSideNomad_messaging-platform"

/-- Observable outcome of one run of `main`: which terminal path was
taken, the diagnostic it printed, and the pages requested on the way.
`runtimeError` is an uncaught exception (scoring, sorting or rendering
raised); `report` is the normal path with the rendered rows and the
"fetched"/"displayed" counts of the summary. -/
inductive RunResult where
  | configError (msg : String)
  | fetchError (msg : String) (pages : List ℕ)
  | noIssues (pages : List ℕ)
  | runtimeError (pages : List ℕ)
  | report (rows : List Row) (totalFetched displayed : ℕ) (pages : List ℕ)
deriving DecidableEq, Repr

/-- The process exit status of each outcome (`sys.exit(1)` on the error
paths, an uncaught exception also exits 1, normal return exits 0). -/
def RunResult.exitCode : RunResult → ℕ
  | .configError _ => 1
  | .fetchError _ _ => 1
  | .runtimeError _ => 1
  | .noIssues _ => 0
  | .report _ _ _ _ => 0

/-- The page numbers requested over the run (empty on the path that exits
before any network activity). -/
def RunResult.requested : RunResult → List ℕ
  | .configError _ => []
  | .fetchError _ p => p
  | .noIssues p => p
  | .runtimeError p => p
  | .report _ _ _ p => p

/-- `main()`: token check, fetch, empty-result check, scoring, sort,
top-50 truncation, table build. -/
def mainRun (env : Env) (service : Service) : RunResult :=
  match env.sonarqToken with
  | none => .configError "Error: SONARQ_TOKEN environment variable not set"
  | some tok =>
    if tok = "" then
      .configError "Error: SONARQ_TOKEN environment variable not set"
    else
      match get_issues service 500 with
      | .err msg pages => .fetchError msg pages
      | .ok issues pages =>
        if issues = [] then .noIssues pages
        else
          match scoreAll issues with
          | none => .runtimeError pages
          | some scored =>
            match sortIssues scored with
            | none => .runtimeError pages
            | some sorted =>
              match renderRows (sorted.take 50) with
              | none => .runtimeError pages
              | some rows =>
                .report rows issues.length (sorted.take 50).length pages

/-- The score a sorted issue carries, read back out of the dictionary
(the sort key reads `x['priority_score']`). -/
def scoreOf (i : Issue) : ℚ :=
  match dictGet i "priority_score" with
  | some (.q v) => v
  | _ => 0

/-- The tie-break position of an issue's severity in `severityOrder`
(the sort key reads `severityOrder.index(x['severity'])`). -/
def sevIdxOf (i : Issue) : ℕ :=
  match getStr i "severity" with
  | some s => (severityIndex s).getD 0
  | none => 0

/-- Mock service of the pagination test of §8 read literally: every page
carries 100 issues, `total` is reported as 250. -/
def svcFlat250 : Service := fun _ => .ok ⟨List.replicate 100 ([] : Issue), 250⟩

/-- Mock service holding 250 issues served in pages of at most 100
(100, 100, 50, then empty), `total` reported as 250. -/
def svcCons250 : Service := fun p =>
  .ok ⟨List.replicate (min 100 (250 - 100 * (p - 1))) ([] : Issue), 250⟩

/-- Mock service for the limit test: pages of 100 toward a total of 1000. -/
def svcTotal1000 : Service := fun _ => .ok ⟨List.replicate 100 ([] : Issue), 1000⟩

/-- A service whose every request fails with a timeout. -/
def svcTimeout : Service := fun _ => .error "timeout"

/-- A service that reports zero issues. -/
def svcEmpty : Service := fun _ => .ok ⟨[], 0⟩

/-- An environment with a set, nonempty token. -/
def envTok : Env := ⟨some "tok", none, none⟩

/-- Concrete scored issues for exercising the sort: two distinct
severities with the same score 3 (MAJOR·1.0 and MINOR·1.5) and one of
score 1, listed in an unsorted order. -/
def c3iA : Issue :=
  [("severity", .s "MINOR"), ("type", .s "VULNERABILITY"), ("priority_score", .q 3)]

/-- Second concrete scored issue (score 3, severity MAJOR). -/
def c3iB : Issue :=
  [("severity", .s "MAJOR"), ("type", .s "CODE_SMELL"), ("priority_score", .q 3)]

/-- Third concrete scored issue (score 1, severity INFO). -/
def c3iC : Issue :=
  [("severity", .s "INFO"), ("type", .s "CODE_SMELL"), ("priority_score", .q 1)]

/-- Concrete issue for the rendering claim: a 70-character message, a
component with a project-key prefix, no `line` field. -/
def c8i : Issue :=
  [("severity", .s "MAJOR"), ("type", .s "CODE_SMELL"),
   ("message", .s "xxxxxxxxxxxxxxxxxxxxxxxxxxxxxxxxxxxxxxxxxxxxxxxxxxxxxxxxxxxxxxxxxxxxxx"),
   ("component", .s "project:src/foo/Bar.java")]

/-- Concrete issue for the frame claim about scoring. -/
def c9i : Issue :=
  [("severity", .s "MAJOR"), ("type", .s "CODE_SMELL"),
   ("message", .s "a message"), ("component", .s "p:A.java"), ("line", .n 12)]

/-- The scored form of `c9i`. -/
def c9scored : Issue :=
  dictSet c9i "priority_score" (.q (get_priority_score "MAJOR" "CODE_SMELL"))

/-- An issue whose severity is outside the canonical five-value list but
which the scorer still accepts; it carries the score 0 the scorer gives it. -/
def c10i : Issue :=
  [("severity", .s "UNKNOWNSEV"), ("type", .s "CODE_SMELL"), ("priority_score", .q 0)]

/-! Helper lemmas about the dictionary model. -/

theorem dictGet_dictSet_self (d : Issue) (k : String) (v : JVal) :
    dictGet (dictSet d k v) k = some v := by
  induction d with
  | nil => simp [dictSet, dictGet]
  | cons p rest ih =>
    by_cases h : p.1 = k
    · simp [dictSet, dictGet, h]
    · simp [dictSet, dictGet, h, ih]

theorem dictGet_dictSet_ne (d : Issue) (k k' : String) (v : JVal)
    (h : k' ≠ k) : dictGet (dictSet d k v) k' = dictGet d k' := by
  induction d with
  | nil =>
    simp only [dictSet, dictGet]
    rw [if_neg (fun he => h he.symm)]
  | cons p rest ih =>
    obtain ⟨pk, pv⟩ := p
    by_cases hp : pk = k
    · subst hp
      simp only [dictSet, if_pos rfl, dictGet]
      rw [if_neg (fun he => h he.symm), if_neg (fun he => h he.symm)]
    · simp only [dictSet, if_neg hp, dictGet]
      by_cases hk' : pk = k'
      · rw [if_pos hk', if_pos hk']
      · rw [if_neg hk', if_neg hk', ih]

/-! Helper lemmas about the Python-style single-character split. -/

theorem pySplit_ne_nil (c : Char) (l : List Char) : pySplit c l ≠ [] := by
  induction l with
  | nil => simp [pySplit]
  | cons x xs ih =>
    by_cases h : x = c
    · simp [pySplit, h]
    · simp only [pySplit, if_neg h]
      cases hr : pySplit c xs with
      | nil => simp
      | cons a t => simp

theorem pySplit_of_not_mem (c : Char) (l : List Char) (h : c ∉ l) :
    pySplit c l = [l] := by
  induction l with
  | nil => rfl
  | cons x xs ih =>
    simp only [List.mem_cons, not_or] at h
    simp only [pySplit]
    rw [if_neg (Ne.symm h.1), ih h.2]

theorem pySplit_append_sep (c : Char) (l₁ l₂ : List Char) :
    pySplit c (l₁ ++ c :: l₂) = pySplit c l₁ ++ pySplit c l₂ := by
  induction l₁ with
  | nil =>
    simp only [List.nil_append, pySplit, if_pos rfl]
    rfl
  | cons x xs ih =>
    by_cases h : x = c
    · simp [pySplit, h, ih]
    · rw [List.cons_append]
      simp only [pySplit]
      rw [if_neg h, if_neg h, ih]
      cases hr : pySplit c xs with
      | nil => exact absurd hr (pySplit_ne_nil c xs)
      | cons a t => simp

/-! Helper lemmas about the sort-key order. -/

theorem keyLe_trans (a b c : ℚ × ℕ) (hab : keyLe a b = true)
    (hbc : keyLe b c = true) : keyLe a c = true := by
  simp only [keyLe, Bool.or_eq_true, Bool.and_eq_true, decide_eq_true_eq] at *
  rcases hab with h1 | ⟨h1, h2⟩ <;> rcases hbc with h3 | ⟨h3, h4⟩
  · exact Or.inl (lt_trans h1 h3)
  · exact Or.inl (h3 ▸ h1)
  · exact Or.inl (h1 ▸ h3)
  · exact Or.inr ⟨h1.trans h3, le_trans h2 h4⟩

theorem keyLe_total (a b : ℚ × ℕ) : (keyLe a b || keyLe b a) = true := by
  simp only [keyLe, Bool.or_eq_true, Bool.and_eq_true, decide_eq_true_eq]
  rcases lt_trichotomy a.1 b.1 with h | h | h
  · exact Or.inl (Or.inl h)
  · rcases Nat.le_total a.2 b.2 with h2 | h2
    · exact Or.inl (Or.inr ⟨h, h2⟩)
    · exact Or.inr (Or.inr ⟨h.symm, h2⟩)
  · exact Or.inr (Or.inl h)

/-- Each of the five canonical severities has a position in the list. -/
theorem severityIndex_of_mem (s : String) (h : s ∈ severityOrder) :
    ∃ idx, severityIndex s = some idx := by
  simp only [severityOrder, List.mem_cons, List.not_mem_nil, or_false] at h
  rcases h with rfl | rfl | rfl | rfl | rfl <;> exact ⟨_, rfl⟩

/-- Shape of the sort key on an issue whose fields are present and whose
severity is in the canonical list. -/
theorem issueKey_eq (i : Issue) (q : ℚ) (s : String) (idx : ℕ)
    (h1 : dictGet i "priority_score" = some (.q q))
    (h2 : getStr i "severity" = some s)
    (h3 : severityIndex s = some idx) :
    issueKey i = some (-q, idx) ∧ scoreOf i = q ∧ sevIdxOf i = idx := by
  refine ⟨?_, ?_, ?_⟩
  · simp [issueKey, h1, h2, h3]
  · simp [scoreOf, h1]
  · simp [sevIdxOf, h2, h3]

/-! Helper lemmas about the pagination loop. -/

/-- The fuel is immaterial as soon as it exceeds `limit - acc.length`:
every continuing iteration grows `acc` by at least one issue, so the
Python `while` loop performs at most `limit - acc.length + 1` iterations.
In particular the `limit + 1` supplied by `get_issues` is always enough. -/
theorem get_issuesAux_fuel_sufficient (service : Service) (limit : ℕ) :
    ∀ fuel₁ fuel₂ page acc reqs, limit ≤ acc.length + fuel₁ →
      limit ≤ acc.length + fuel₂ →
      get_issuesAux service limit fuel₁ page acc reqs =
        get_issuesAux service limit fuel₂ page acc reqs := by
  intro fuel₁
  induction fuel₁ with
  | zero =>
    intro fuel₂ page acc reqs h1 _
    cases fuel₂ with
    | zero => rfl
    | succ n =>
      simp only [get_issuesAux]
      rw [if_neg (by omega)]
  | succ n ih =>
    intro fuel₂ page acc reqs h1 h2
    cases fuel₂ with
    | zero =>
      simp only [get_issuesAux]
      rw [if_neg (by omega)]
    | succ m =>
      simp only [get_issuesAux]
      by_cases hlt : acc.length < limit
      · rw [if_pos hlt, if_pos hlt]
        cases hs : service page with
        | error e => rfl
        | ok data =>
          dsimp only
          by_cases hemp : data.issues = []
          · rw [if_pos hemp, if_pos hemp]
          · rw [if_neg hemp, if_neg hemp]
            by_cases htot : data.total ≤ (acc ++ data.issues).length
            · rw [if_pos htot, if_pos htot]
            · rw [if_neg htot, if_neg htot]
              have hne : data.issues.length ≠ 0 :=
                fun h0 => hemp (List.length_eq_zero.mp h0)
              exact ih m (page + 1) (acc ++ data.issues) (reqs ++ [page])
                (by simp [List.length_append]; omega)
                (by simp [List.length_append]; omega)
      · rw [if_neg hlt, if_neg hlt]

/-- The pages requested by the loop are consecutive, starting with the
`page` argument. -/
theorem get_issuesAux_pages_shape (service : Service) (limit : ℕ) :
    ∀ fuel page acc reqs, ∃ k,
      (get_issuesAux service limit fuel page acc reqs).pages =
        reqs ++ List.range' page k := by
  intro fuel
  induction fuel with
  | zero =>
    intro page acc reqs
    exact ⟨0, by simp [get_issuesAux, FetchOut.pages]⟩
  | succ n ih =>
    intro page acc reqs
    simp only [get_issuesAux]
    by_cases hlt : acc.length < limit
    · rw [if_pos hlt]
      cases hs : service page with
      | error e =>
        exact ⟨1, by simp [FetchOut.pages, List.range'_succ]⟩
      | ok data =>
        dsimp only
        by_cases hemp : data.issues = []
        · rw [if_pos hemp]
          exact ⟨1, by simp [FetchOut.pages, List.range'_succ]⟩
        · rw [if_neg hemp]
          by_cases htot : data.total ≤ (acc ++ data.issues).length
          · rw [if_pos htot]
            exact ⟨1, by simp [FetchOut.pages, List.range'_succ]⟩
          · rw [if_neg htot]
            obtain ⟨k, hk⟩ := ih (page + 1) (acc ++ data.issues) (reqs ++ [page])
            refine ⟨k + 1, ?_⟩
            rw [hk, List.range'_succ, List.append_assoc]
            rfl
    · rw [if_neg hlt]
      exact ⟨0, by simp [FetchOut.pages]⟩

/-- An error outcome of the loop comes from a transport error on the last
requested page, and the diagnostic is built from its message. -/
theorem get_issuesAux_err_shape (service : Service) (limit : ℕ) :
    ∀ fuel page acc reqs msg pgs,
      get_issuesAux service limit fuel page acc reqs = .err msg pgs →
      ∃ e p, service p = .error e ∧
        msg = "Error fetching issues: " ++ e ∧ pgs.getLast? = some p := by
  intro fuel
  induction fuel with
  | zero => intro page acc reqs msg pgs h; exact absurd h (by simp [get_issuesAux])
  | succ n ih =>
    intro page acc reqs msg pgs h
    simp only [get_issuesAux] at h
    by_cases hlt : acc.length < limit
    · rw [if_pos hlt] at h
      cases hs : service page with
      | error e =>
        rw [hs] at h
        injection h with h1 h2
        exact ⟨e, page, hs, h1.symm, by rw [← h2]; exact List.getLast?_concat _⟩
      | ok data =>
        rw [hs] at h
        dsimp only at h
        by_cases hemp : data.issues = []
        · rw [if_pos hemp] at h; exact absurd h (by simp)
        · rw [if_neg hemp] at h
          by_cases htot : data.total ≤ (acc ++ data.issues).length
          · rw [if_pos htot] at h; exact absurd h (by simp)
          · rw [if_neg htot] at h
            exact ih (page + 1) (acc ++ data.issues) (reqs ++ [page]) msg pgs h
    · rw [if_neg hlt] at h
      exact absurd h (by simp)

/-- C2: for every pair (severity, type) in the tables,
`get_priority_score` returns base[severity] × multiplier[type], with
BLOCKER=5, CRITICAL=4, MAJOR=3, MINOR=2, INFO=1 and VULNERABILITY=1.5,
BUG=1.3, SECURITY_HOTSPOT=1.2, CODE_SMELL=1.0; any severity outside the
table scores 0 regardless of type, and any type outside the table gets
the default multiplier 1.0. -/
theorem claim_C2 :
    (get_priority_score "BLOCKER" "VULNERABILITY" = 5 * (3/2) ∧
     get_priority_score "BLOCKER" "BUG" = 5 * (13/10) ∧
     get_priority_score "BLOCKER" "SECURITY_HOTSPOT" = 5 * (6/5) ∧
     get_priority_score "BLOCKER" "CODE_SMELL" = 5 * 1 ∧
     get_priority_score "CRITICAL" "VULNERABILITY" = 4 * (3/2) ∧
     get_priority_score "CRITICAL" "BUG" = 4 * (13/10) ∧
     get_priority_score "CRITICAL" "SECURITY_HOTSPOT" = 4 * (6/5) ∧
     get_priority_score "CRITICAL" "CODE_SMELL" = 4 * 1 ∧
     get_priority_score "MAJOR" "VULNERABILITY" = 3 * (3/2) ∧
     get_priority_score "MAJOR" "BUG" = 3 * (13/10) ∧
     get_priority_score "MAJOR" "SECURITY_HOTSPOT" = 3 * (6/5) ∧
     get_priority_score "MAJOR" "CODE_SMELL" = 3 * 1 ∧
     get_priority_score "MINOR" "VULNERABILITY" = 2 * (3/2) ∧
     get_priority_score "MINOR" "BUG" = 2 * (13/10) ∧
     get_priority_score "MINOR" "SECURITY_HOTSPOT" = 2 * (6/5) ∧
     get_priority_score "MINOR" "CODE_SMELL" = 2 * 1 ∧
     get_priority_score "INFO" "VULNERABILITY" = 1 * (3/2) ∧
     get_priority_score "INFO" "BUG" = 1 * (13/10) ∧
     get_priority_score "INFO" "SECURITY_HOTSPOT" = 1 * (6/5) ∧
     get_priority_score "INFO" "CODE_SMELL" = 1 * 1) ∧
    (∀ s, s ∉ severityOrder → ∀ t, get_priority_score s t = 0) ∧
    (∀ t,
      t ∉ (["VULNERABILITY", "BUG", "SECURITY_HOTSPOT", "CODE_SMELL"] : List String) →
      typeMultiplier t = 1 ∧ ∀ s, get_priority_score s t = severityScoreTable s) := by
  refine ⟨?_, ?_, ?_⟩
  · simp +decide [get_priority_score, severityScoreTable, typeMultiplier]
  · intro s hs t
    simp only [severityOrder, List.mem_cons, List.not_mem_nil, or_false,
      not_or] at hs
    obtain ⟨h1, h2, h3, h4, h5⟩ := hs
    simp [get_priority_score, severityScoreTable, h1, h2, h3, h4, h5]
  · intro t ht
    simp only [List.mem_cons, List.not_mem_nil, or_false, not_or] at ht
    obtain ⟨h1, h2, h3, h4⟩ := ht
    have hm : typeMultiplier t = 1 := by
      simp [typeMultiplier, h1, h2, h3, h4]
    exact ⟨hm, fun s => by simp [get_priority_score, hm]⟩

/-- C2 witness: the default cases instantiated at severities and types
outside the tables. -/
theorem claim_C2_witness :
    get_priority_score "WHATEVER" "BUG" = 0 ∧
    typeMultiplier "SOMETYPE" = 1 ∧
    get_priority_score "BLOCKER" "SOMETYPE" = severityScoreTable "BLOCKER" :=
  ⟨claim_C2.2.1 "WHATEVER" (by decide) "BUG",
   (claim_C2.2.2 "SOMETYPE" (by decide)).1,
   (claim_C2.2.2 "SOMETYPE" (by decide)).2 "BLOCKER"⟩

set_option maxRecDepth 20000 in
/-- C1 counterexample: read literally, a service that returns 100 issues
on *every* page while reporting `total = 250` makes `get_issues` with
`limit = 500` return 300 issues (the loop only checks the total *after*
extending, so the third page's full 100 issues are all kept), not 250 —
it does stop after exactly 3 page requests. -/
theorem claim_C1_counterexample :
    (get_issues svcFlat250 500).issuesLen = 300 ∧
    (get_issues svcFlat250 500).pages = [1, 2, 3] ∧
    (get_issues svcFlat250 500).issuesLen ≠ 250 := by
  refine ⟨by decide, by decide, by decide⟩

set_option maxRecDepth 20000 in
/-- C1 amended: when the mock service actually holds 250 issues served in
pages of at most 100 (100, 100, 50) and reports `total = 250`,
`get_issues` with `limit = 500` returns exactly 250 issues and makes
exactly 3 page requests. -/
theorem claim_C1 :
    get_issues svcCons250 500 = .ok (List.replicate 250 []) [1, 2, 3] ∧
    (get_issues svcCons250 500).issuesLen = 250 ∧
    (get_issues svcCons250 500).pages.length = 3 := by
  refine ⟨by decide, by decide, by decide⟩

/-- C4: for every limit and every service, a successful `get_issues`
returns the accumulated list truncated to at most `limit` entries; in
particular with pages of 100 toward a reported total of 1000 and
`limit = 120` it returns exactly 120 issues. -/
theorem claim_C4 :
    (∀ (service : Service) (limit : ℕ) (out : List Issue) (pgs : List ℕ),
      get_issues service limit = .ok out pgs → out.length ≤ limit) ∧
    get_issues svcTotal1000 120 = .ok (List.replicate 120 []) [1, 2] ∧
    (get_issues svcTotal1000 120).issuesLen = 120 := by
  refine ⟨?_, by decide, by decide⟩
  intro service limit out pgs h
  rw [get_issues] at h
  cases haux : get_issuesAux service limit (limit + 1) 1 [] [] with
  | ok acc reqs =>
    rw [haux] at h
    injection h with h1 h2
    rw [← h1, List.length_take]
    exact min_le_left _ _
  | err e reqs =>
    rw [haux] at h
    exact absurd h (by simp)

set_option maxRecDepth 20000 in
/-- C4 witness: the universal truncation bound applied at the concrete
1000-issue service with limit 120. -/
theorem claim_C4_witness : (List.replicate 120 ([] : Issue)).length ≤ 120 :=
  claim_C4.1 svcTotal1000 120 (List.replicate 120 []) [1, 2] (by decide)

/-- C3: on any list of scored issues whose severities are all in
[BLOCKER, CRITICAL, MAJOR, MINOR, INFO], the ranking step succeeds, and
it returns a permutation of the input that is sorted descending by
priority score, with equal scores ordered by ascending position of the
severity in the fixed list. -/
theorem claim_C3 (issues : List Issue)
    (h : ∀ i ∈ issues, ∃ q s, dictGet i "priority_score" = some (.q q) ∧
      getStr i "severity" = some s ∧ s ∈ severityOrder) :
    sortIssues issues ≠ none ∧
    ∀ out, sortIssues issues = some out →
      out.Perm issues ∧
      out.Pairwise (fun a b => scoreOf b < scoreOf a ∨
        (scoreOf a = scoreOf b ∧ sevIdxOf a ≤ sevIdxOf b)) := by
  have hkey : ∀ i ∈ issues, issueKey i = some (-(scoreOf i), sevIdxOf i) := by
    intro i hi
    obtain ⟨q, s, h1, h2, h3⟩ := h i hi
    obtain ⟨idx, hidx⟩ := severityIndex_of_mem s h3
    obtain ⟨hk, hsc, hsi⟩ := issueKey_eq i q s idx h1 h2 hidx
    rw [hk, hsc, hsi]
  have hall : issues.all (fun i => (issueKey i).isSome) = true := by
    rw [List.all_eq_true]
    intro i hi
    rw [hkey i hi]
    rfl
  have hsort : sortIssues issues =
      some (issues.mergeSort (fun a b => keyLe (sortKeyD a) (sortKeyD b))) := by
    rw [sortIssues, if_pos hall]
  refine ⟨by rw [hsort]; exact fun hc => Option.noConfusion hc, ?_⟩
  intro out hout
  rw [hsort] at hout
  injection hout with hout
  subst hout
  have hperm := List.mergeSort_perm issues (fun a b => keyLe (sortKeyD a) (sortKeyD b))
  refine ⟨hperm, ?_⟩
  have hsorted := @List.sorted_mergeSort Issue
    (fun a b => keyLe (sortKeyD a) (sortKeyD b))
    (fun a b c hab hbc => keyLe_trans _ _ _ hab hbc)
    (fun a b => keyLe_total _ _) issues
  refine hsorted.imp_of_mem ?_
  intro a b ha hb hab
  have ha' : a ∈ issues := hperm.mem_iff.mp ha
  have hb' : b ∈ issues := hperm.mem_iff.mp hb
  have hka : sortKeyD a = (-(scoreOf a), sevIdxOf a) := by
    rw [sortKeyD, hkey a ha']; rfl
  have hkb : sortKeyD b = (-(scoreOf b), sevIdxOf b) := by
    rw [sortKeyD, hkey b hb']; rfl
  rw [hka, hkb] at hab
  simp only [keyLe, Bool.or_eq_true, Bool.and_eq_true, decide_eq_true_eq] at hab
  rcases hab with h1 | ⟨h1, h2⟩
  · exact Or.inl (by simpa using neg_lt_neg_iff.mp (by simpa using h1))
  · exact Or.inr ⟨neg_inj.mp (by simpa using h1), by simpa using h2⟩

/-- C3 witness: the sort succeeds on a concrete list with a score tie
between a MINOR·VULNERABILITY and a MAJOR·CODE_SMELL issue. -/
theorem claim_C3_witness : sortIssues [c3iA, c3iB, c3iC] ≠ none :=
  (claim_C3 [c3iA, c3iB, c3iC] (by
    intro i hi
    simp only [List.mem_cons, List.not_mem_nil, or_false] at hi
    rcases hi with rfl | rfl | rfl
    · exact ⟨3, "MINOR", rfl, rfl, by decide⟩
    · exact ⟨3, "MAJOR", rfl, rfl, by decide⟩
    · exact ⟨1, "INFO", rfl, rfl, by decide⟩)).1

/-- C5: with a valid token, whenever the fetch ends in a transport error,
`main` prints a diagnostic that is exactly "Error fetching issues: "
followed by the underlying error text, exits with status 1, and never
retried: the failing request is the last one and no page number was ever
requested twice. -/
theorem claim_C5 (env : Env) (tok : String) (service : Service)
    (htok : env.sonarqToken = some tok) (hne : tok ≠ "") :
    ∀ msg pgs, get_issues service 500 = .err msg pgs →
      mainRun env service = .fetchError msg pgs ∧
      (mainRun env service).exitCode = 1 ∧
      (∃ e p, service p = .error e ∧
        msg = "Error fetching issues: " ++ e ∧ pgs.getLast? = some p) ∧
      pgs.Nodup := by
  intro msg pgs hfetch
  have hmain : mainRun env service = .fetchError msg pgs := by
    rw [mainRun, htok]
    dsimp only
    rw [if_neg hne, hfetch]
  refine ⟨hmain, by rw [hmain]; rfl, ?_, ?_⟩
  · rw [get_issues] at hfetch
    cases haux : get_issuesAux service 500 501 1 [] [] with
    | ok acc reqs => rw [haux] at hfetch; exact absurd hfetch (by simp)
    | err e reqs =>
      rw [haux] at hfetch
      injection hfetch with h1 h2
      subst h1; subst h2
      exact get_issuesAux_err_shape service 500 501 1 [] [] e reqs haux
  · obtain ⟨k, hk⟩ := get_issuesAux_pages_shape service 500 501 1 [] []
    have hpgs : pgs = List.range' 1 k := by
      rw [get_issues] at hfetch
      cases haux : get_issuesAux service 500 501 1 [] [] with
      | ok acc reqs => rw [haux] at hfetch; exact absurd hfetch (by simp)
      | err e reqs =>
        rw [haux] at hfetch
        injection hfetch with h1 h2
        rw [haux] at hk
        simp only [FetchOut.pages, List.nil_append] at hk
        rw [← h2, hk]
    rw [hpgs]
    exact List.nodup_range' 1 k

/-- C5 witness: a service whose first request times out makes `main`
print the diagnostic with the cause text and stop after that single
request. -/
theorem claim_C5_witness :
    mainRun envTok svcTimeout = .fetchError "Error fetching issues: timeout" [1] :=
  (claim_C5 envTok "tok" svcTimeout rfl (by decide)
    "Error fetching issues: timeout" [1] (by decide)).1

/-- C6: if the token environment variable is unset or set to the empty
string, `main` prints the missing-token diagnostic and exits with status
1 having requested no page at all. -/
theorem claim_C6 (env : Env) (service : Service)
    (h : env.sonarqToken = none ∨ env.sonarqToken = some "") :
    mainRun env service =
      .configError "Error: SONARQ_TOKEN environment variable not set" ∧
    (mainRun env service).exitCode = 1 ∧
    (mainRun env service).requested = [] := by
  have hmain : mainRun env service =
      .configError "Error: SONARQ_TOKEN environment variable not set" := by
    rcases h with h | h
    · rw [mainRun, h]
    · rw [mainRun, h]
      dsimp only
      rw [if_pos rfl]
  exact ⟨hmain, by rw [hmain]; rfl, by rw [hmain]; rfl⟩

/-- C6 witness: the unset-token environment applied to a live service. -/
theorem claim_C6_witness :
    mainRun ⟨none, none, none⟩ svcEmpty =
      .configError "Error: SONARQ_TOKEN environment variable not set" :=
  (claim_C6 ⟨none, none, none⟩ svcEmpty (Or.inl rfl)).1

/-- C7: with a valid token, if the fetch succeeds with zero issues,
`main` takes the single no-issues path — no scoring, no sorting, no table
— and exits with status 0. -/
theorem claim_C7 (env : Env) (tok : String) (service : Service) (pgs : List ℕ)
    (htok : env.sonarqToken = some tok) (hne : tok ≠ "")
    (hfetch : get_issues service 500 = .ok [] pgs) :
    mainRun env service = .noIssues pgs ∧
    (mainRun env service).exitCode = 0 := by
  have hmain : mainRun env service = .noIssues pgs := by
    rw [mainRun, htok]
    dsimp only
    rw [if_neg hne, hfetch]
    dsimp only
    rw [if_pos rfl]
  exact ⟨hmain, by rw [hmain]; rfl⟩

/-- C7 witness: a service reporting zero issues on page 1 makes `main`
take the no-issues path after that single request. -/
theorem claim_C7_witness : mainRun envTok svcEmpty = .noIssues [1] :=
  (claim_C7 envTok "tok" svcEmpty [1] rfl (by decide) (by decide)).1

/-- C8: a rendered row carries the 1-based index, the severity and type
values, the message truncated to exactly 60 characters when longer and
unmodified when not, the final colon-delimited segment of the component
(the whole component when it has no colon), and the line number or the
placeholder dash when the line is absent. -/
theorem claim_C8 (idx : ℕ) (i : Issue) (sev ty : JVal) (msg comp : String)
    (hsev : dictGet i "severity" = some sev) (hty : dictGet i "type" = some ty)
    (hmsg : dictGet i "message" = some (.s msg))
    (hcomp : dictGet i "component" = some (.s comp)) :
    (renderRow idx i).isSome ∧
    ∀ row, renderRow idx i = some row →
      row.idx = idx ∧ row.severity = sev ∧ row.type_ = ty ∧
      row.message = (⟨msg.data.take 60⟩ : String) ∧
      (msg.length ≤ 60 → row.message = msg) ∧
      (60 < msg.length → row.message.length = 60) ∧
      (∀ pre post : List Char, comp.data = pre ++ ':' :: post → ':' ∉ post →
        row.component = (⟨post⟩ : String)) ∧
      (':' ∉ comp.data → row.component = comp) ∧
      (∀ n, dictGet i "line" = some (.n n) → row.line = .n n) ∧
      (dictGet i "line" = none → row.line = .s "-") := by
  have hrow : renderRow idx i = some
      { idx := idx, severity := sev, type_ := ty,
        message := ⟨msg.data.take 60⟩,
        component := ⟨(pySplit ':' comp.data).getLastD []⟩,
        line := (dictGet i "line").getD (.s "-") } := by
    rw [renderRow, hsev, hty, hmsg, hcomp]
    rfl
  refine ⟨by rw [hrow]; rfl, ?_⟩
  intro row hr
  rw [hrow] at hr
  injection hr with hr
  subst hr
  refine ⟨rfl, rfl, rfl, rfl, ?_, ?_, ?_, ?_, ?_, ?_⟩
  · intro hle
    have hdata : msg.data.take 60 = msg.data :=
      List.take_of_length_le hle
    show (⟨msg.data.take 60⟩ : String) = msg
    rw [hdata]
  · intro hgt
    show (msg.data.take 60).length = 60
    rw [List.length_take]
    have : 60 < msg.data.length := hgt
    omega
  · intro pre post hsplit hnm
    show (⟨(pySplit ':' comp.data).getLastD []⟩ : String) = ⟨post⟩
    rw [hsplit, pySplit_append_sep, pySplit_of_not_mem _ _ hnm,
      List.getLastD_concat]
  · intro hnm
    show (⟨(pySplit ':' comp.data).getLastD []⟩ : String) = comp
    rw [pySplit_of_not_mem _ _ hnm]
    rfl
  · intro n hn
    show (dictGet i "line").getD (.s "-") = .n n
    rw [hn]
    rfl
  · intro hn
    show (dictGet i "line").getD (.s "-") = .s "-"
    rw [hn]
    rfl

/-- C8 witness: the concrete issue with a 70-character message, component
"project:src/foo/Bar.java" and no line renders with a 60-character
message, component "src/foo/Bar.java" and the dash placeholder. -/
theorem claim_C8_witness :
    (renderRow 1 c8i).isSome ∧
    (renderRow 1 c8i).map Row.component = some "src/foo/Bar.java" ∧
    (renderRow 1 c8i).map (fun r => r.message.length) = some 60 ∧
    (renderRow 1 c8i).map Row.line = some (.s "-") := by
  have h := claim_C8 1 c8i (.s "MAJOR") (.s "CODE_SMELL")
    "xxxxxxxxxxxxxxxxxxxxxxxxxxxxxxxxxxxxxxxxxxxxxxxxxxxxxxxxxxxxxxxxxxxxxx"
    "project:src/foo/Bar.java" rfl rfl rfl rfl
  refine ⟨h.1, ?_, ?_, ?_⟩
  all_goals cases hr : renderRow 1 c8i with
  | none => rw [hr] at h; exact absurd h.1 (by simp)
  | some row =>
    obtain ⟨-, -, -, -, -, hlen, hcompseg, -, -, hline⟩ := h.2 row hr
    refine congrArg some ?_
    first
    | exact hcompseg "project".data "src/foo/Bar.java".data (by decide) (by decide)
    | exact hlen (by decide)
    | exact hline rfl

/-- C9: the scoring step succeeds on an issue with string `severity` and
`type` fields, stores exactly the computed score under `priority_score`,
and leaves the value of every other key unchanged. -/
theorem claim_C9 (i : Issue) (sev ty : String)
    (hsev : getStr i "severity" = some sev) (hty : getStr i "type" = some ty) :
    (scoreIssue i).isSome ∧
    ∀ i', scoreIssue i = some i' →
      dictGet i' "priority_score" = some (.q (get_priority_score sev ty)) ∧
      ∀ k, k ≠ "priority_score" → dictGet i' k = dictGet i k := by
  have hs : scoreIssue i =
      some (dictSet i "priority_score" (.q (get_priority_score sev ty))) := by
    rw [scoreIssue, hsev, hty]
  refine ⟨by rw [hs]; rfl, ?_⟩
  intro i' hi'
  rw [hs] at hi'
  injection hi' with hi'
  subst hi'
  exact ⟨dictGet_dictSet_self i _ _,
    fun k hk => dictGet_dictSet_ne i _ k _ hk⟩

/-- C9 witness: scoring a concrete MAJOR/CODE_SMELL issue succeeds and
leaves its `message` field untouched. -/
theorem claim_C9_witness :
    (scoreIssue c9i).isSome ∧
    dictGet c9scored "message" = dictGet c9i "message" :=
  ⟨(claim_C9 c9i "MAJOR" "CODE_SMELL" rfl rfl).1,
   ((claim_C9 c9i "MAJOR" "CODE_SMELL" rfl rfl).2 c9scored rfl).2 "message"
     (by decide)⟩

/-- C10: an issue whose severity is outside the canonical five-value list
is accepted by the scorer (score 0), but the sort's tie-break lookup on
that severity fails, so the ranking step raises instead of producing an
ordering. -/
theorem claim_C10 :
    getStr c10i "severity" = some "UNKNOWNSEV" ∧
    severityIndex "UNKNOWNSEV" = none ∧
    sortIssues [c10i] = none ∧
    get_priority_score "UNKNOWNSEV" "CODE_SMELL" = 0 := by
  refine ⟨by decide, by decide, by decide, ?_⟩
  simp +decide [get_priority_score, severityScoreTable, typeMultiplier]
